import Mathlib

/-
Shallow embedding of the news-processing pipeline (src/src): the pydantic
data models (news_models.py), the orchestrator (agents/news_agent.py), the
summary synthesizer (components/llm_manager.py) and the vector store
(vectorstores/supabase_store.py).

Modelling conventions:
  - every external effect (web search, article extraction, LLM chain call,
    database call, embedding model) is an oracle function supplied through an
    environment record; a call that can raise a Python exception is an oracle
    returning Except String alpha, and a try/except block in the source
    becomes a match on that Except value;
  - pydantic validation that can fail at object construction (a required str
    field receiving None, a List[HttpUrl] field receiving dicts, the
    bias-label regex) is modelled by explicit checks returning Except;
  - Python strings are Lean String values; slices s[:n] are String.take;
    truthiness of an optional string (if self.field:) is modelled by the
    truthy predicate below, since None and the empty string are both falsy;
  - timestamps (processing_timestamp, created_at, publication_date) and the
    embedding details are irrelevant to every claim and are omitted from the
    records; similarity scores are modelled as rationals.
-/

deriving instance DecidableEq for Except

/-- Truthiness of an optional string in Python: None and the empty string
are falsy, every other string is truthy. -/
def truthy : Option String → Bool
  | none => false
  | some s => !(s == "")

/-- Model of ProcessingInput (news_models.py): three optional fields; the
topic_url field is kept as the string form of the validated HttpUrl.  A
pydantic HttpUrl object is always truthy once present, so in the url branch
only presence matters. -/
structure ProcessingInput where
  topic_title : Option String
  topic_url : Option String
  topic_description : Option String
deriving DecidableEq, Repr

/-- Model of ProcessingInput.get_search_query (news_models.py lines 49-58):
title if truthy, else description if truthy, else the url string if present,
else a ValueError.  The branch conditions are Python truthiness checks. -/
def ProcessingInput.get_search_query (i : ProcessingInput) : Except String String :=
  if truthy i.topic_title then Except.ok (i.topic_title.getD "")
  else if truthy i.topic_description then Except.ok (i.topic_description.getD "")
  else match i.topic_url with
    | some u => Except.ok u
    | none => Except.error "At least one input field must be provided"

/-- Model of a constructed NewsArticle (news_models.py lines 11-39).  The
source field is a required str; source_name is Optional[str].  Fields not
used by any claim (publication_date, authors, summary, keywords) are
omitted. -/
structure NewsArticle where
  title : String
  content : String
  url : String
  source : String
  source_name : Option String
  domain : String
  political_bias : String
deriving DecidableEq, Repr

/-- Keyword data passed to the NewsArticle constructor.  For the two fields
touched by the mirroring logic the outer Option records presence of the key
in the data dict and the inner Option records an explicit None value, so
that an absent key and an explicit None are distinguished exactly as in
Python. -/
structure NewsArticleData where
  title : String
  content : String
  url : String
  source : Option (Option String)
  source_name : Option (Option String)
  domain : String
  political_bias : String
deriving DecidableEq, Repr

/-- Validity of the bias label under the pydantic regex
pattern Left|Center|Right anchored on both sides. -/
def validBias (b : String) : Bool :=
  b == "Left" || b == "Center" || b == "Right"

/-- Model of NewsArticle.__init__ plus pydantic validation (news_models.py
lines 26-33): if the source_name key is absent and the source key is
present, source_name is set from source; else if the source key is absent
and the source_name key is present, source is set from source_name; then
validation requires source to be a plain string and political_bias to match
the bias regex. -/
def NewsArticle.init (d : NewsArticleData) : Except String NewsArticle :=
  let sn : Option (Option String) :=
    if d.source_name = none ∧ d.source.isSome then d.source else d.source_name
  let s : Option (Option String) :=
    if d.source = none ∧ d.source_name.isSome then d.source_name else d.source
  match s with
  | some (some src) =>
      if validBias d.political_bias then
        Except.ok
          { title := d.title, content := d.content, url := d.url,
            source := src, source_name := sn.getD none,
            domain := d.domain, political_bias := d.political_bias }
      else Except.error "political_bias: string should match pattern"
  | some none => Except.error "source: input should be a valid string"
  | none => Except.error "source: field required"

/-- Model of BiasSpecificSummary (news_models.py lines 61-67). -/
structure BiasSpecificSummary where
  political_bias : String
  summary : String
  article_count : Nat
  sources : List String
deriving DecidableEq, Repr

/-- Model of BiasVisualizationData (news_models.py lines 70-75). -/
structure BiasVisualizationData where
  source_name : String
  bias : String
  url : String
deriving DecidableEq, Repr

/-- Model of NeutralSummary (news_models.py lines 78-84).  The
internal_links field is declared List[HttpUrl] in the source, so a
successfully constructed value holds url strings. -/
structure NeutralSummary where
  summary : String
  key_facts : List String
  related_context : List String
  internal_links : List String
deriving DecidableEq, Repr

/-- Metadata mapping attached to a vector store entry.  Only the keys
consulted by the pipeline are modelled; presence of a key is an Option. -/
structure VsMetadata where
  title : Option String
  url : Option String
  source : Option String
  domain : Option String
  political_bias : Option String
deriving DecidableEq, Repr

/-- Model of VectorStoreEntry (news_models.py lines 105-117) without the
created_at timestamp. -/
structure VectorStoreEntry where
  id : String
  content : String
  metadata : VsMetadata
  embedding : List ℚ
deriving DecidableEq, Repr

/-- Model of ProcessingResult (news_models.py lines 87-102) without the
processing timestamp. -/
structure ProcessingResult where
  topic : String
  neutral_summary : NeutralSummary
  bias_summaries : List BiasSpecificSummary
  bias_visualization_data : List BiasVisualizationData
  articles_processed : List NewsArticle
  wordpress_post_id : Option Nat
deriving DecidableEq, Repr

/-- Environment of external collaborators used by the pipeline.  Each chain
call and store call may raise, which is modelled by Except.  The biasChain
oracle receives the bias label and the formatted articles text; the
neutralChain oracle receives articles text, context text and topic; the
keyFactsChain oracle receives articles text and the produced summary.  The
fetchExtra oracle models extract_article_content together with the
source-info lookup for an explicit topic url; it catches internally and
returns none on failure.  The publish oracle models
wordpress_publisher.publish_news_analysis. -/
structure Env where
  findArticles : String → Except String (List NewsArticle)
  fetchExtra : String → Option NewsArticle
  search : String → Nat → ℚ → Except String (List (VectorStoreEntry × ℚ))
  biasChain : String → String → Except String String
  neutralChain : String → String → String → Except String String
  keyFactsChain : String → String → Except String String
  wordpressUrl : String
  publish : ProcessingResult → Except String (Option Nat)

/-- Formatting of one article for a prompt (llm_manager.py lines 247-254);
the index is 1-based and a None source_name prints as the string None, as an
f-string does. -/
def formatArticle (i : Nat) (a : NewsArticle) : String :=
  "\nArtikel " ++ toString i ++ ":\nKälla: " ++ (a.source_name.getD "None")
    ++ " (" ++ a.political_bias ++ ")\nTitel: " ++ a.title
    ++ "\nInnehåll: " ++ a.content.take 1000 ++ "...\nURL: " ++ a.url ++ "\n---\n"

/-- Model of LLMManager._format_articles_for_prompt (llm_manager.py lines
242-257): the first 10 articles formatted and joined with newlines. -/
def formatArticles (articles : List NewsArticle) : String :=
  String.intercalate "\n"
    (((articles.take 10).enum).map (fun p => formatArticle (p.1 + 1) p.2))

/-- Model of LLMManager._format_context_for_prompt (llm_manager.py lines
259-274): a fixed sentence when the context is empty, else the first 5
entries formatted and joined. -/
def formatContext (ctx : List VectorStoreEntry) : String :=
  if ctx.isEmpty then "Ingen relevant historisk kontext hittades."
  else String.intercalate "\n"
    (((ctx.take 5).enum).map (fun p =>
      "\nKontext " ++ toString (p.1 + 1) ++ ":\n" ++ p.2.content.take 500 ++ "...\n---\n"))

/-- Model of LLMManager._group_articles_by_bias restricted to one label
(llm_manager.py lines 213-221): the articles carrying that label, in input
order; articles with an unknown label fall outside every group. -/
def groupByBias (articles : List NewsArticle) (b : String) : List NewsArticle :=
  articles.filter (fun a => a.political_bias == b)

/-- Sentinel BiasSpecificSummary produced for a label with no matching
articles (llm_manager.py lines 112-118). -/
def emptyBiasSentinel (b : String) : BiasSpecificSummary :=
  { political_bias := b,
    summary := "Inga " ++ b.toLower ++ "-orienterade källor rapporterade om detta ämne.",
    article_count := 0,
    sources := [] }

/-- Model of LLMManager._generate_bias_summary (llm_manager.py lines
223-240): one generator call on the formatted articles; the result is
stripped, and a generator failure is caught and replaced by a per-label
sentinel. -/
def generateBiasSummary (gen : String → String → Except String String)
    (b : String) (articles : List NewsArticle) : String :=
  match gen b (formatArticles articles) with
  | Except.ok s => s.trim
  | Except.error _ =>
      "Kunde inte generera sammanfattning för " ++ b ++ "-orienterade källor."

/-- Entry produced by process_all_bias_summaries for one label, assuming
the pydantic construction of the entry succeeds: the sentinel when the group
is empty, else the generated summary with the count and source names of the
group (llm_manager.py lines 98-120). -/
def labelEntry (gen : String → String → Except String String)
    (grouped : String → List NewsArticle) (b : String) : BiasSpecificSummary :=
  let g := grouped b
  if g.isEmpty then emptyBiasSentinel b
  else
    { political_bias := b,
      summary := generateBiasSummary gen b g,
      article_count := g.length,
      sources := g.map (fun a => a.source_name.getD "") }

/-- Construction of the sources list of a BiasSpecificSummary
(llm_manager.py line 109) with its pydantic validation: the field is
List[str], so an article whose source_name is None makes the construction
raise. -/
def sourcesOption : List NewsArticle → Option (List String)
  | [] => some []
  | a :: t =>
    match a.source_name with
    | some s => (sourcesOption t).map (fun l => s :: l)
    | none => none

/-- Loop of process_all_bias_summaries over the label list, instrumented
with a log of the generator calls made, each recorded as the pair of the
label and the formatted articles text handed to the chain.  For a nonempty
group the generator is called first and the BiasSpecificSummary is
constructed second; the construction raises a pydantic ValidationError when
some grouped article has source_name None (the sources field is List[str]),
which aborts the loop. -/
def processLabels (gen : String → String → Except String String)
    (grouped : String → List NewsArticle) :
    List String → Except String (List BiasSpecificSummary) × List (String × String)
  | [] => (Except.ok [], [])
  | b :: rest =>
    let g := grouped b
    if g.isEmpty then
      let (r, log) := processLabels gen grouped rest
      (r.map (fun l => emptyBiasSentinel b :: l), log)
    else
      let text := formatArticles g
      let stext := generateBiasSummary gen b g
      match sourcesOption g with
      | none => (Except.error "sources: input should be a valid string", [(b, text)])
      | some srcs =>
        let entry : BiasSpecificSummary :=
          { political_bias := b, summary := stext, article_count := g.length, sources := srcs }
        let (r, log) := processLabels gen grouped rest
        (r.map (fun l => entry :: l), (b, text) :: log)

/-- Model of LLMManager.process_all_bias_summaries (llm_manager.py lines
81-127) together with the log of generator calls: the labels Left, Center,
Right are processed in order, and any exception inside the loop is caught by
the wrapping try, which returns the empty list. -/
def processAllBiasSummariesLog (gen : String → String → Except String String)
    (articles : List NewsArticle) :
    List BiasSpecificSummary × List (String × String) :=
  let (r, log) := processLabels gen (groupByBias articles) ["Left", "Center", "Right"]
  (match r with
   | Except.ok l => l
   | Except.error _ => [], log)

/-- Model of LLMManager.process_all_bias_summaries, result only. -/
def processAllBiasSummaries (gen : String → String → Except String String)
    (articles : List NewsArticle) : List BiasSpecificSummary :=
  (processAllBiasSummariesLog gen articles).1

/-- Stripping of every leading occurrence of one character, as
str.lstrip with a single-character argument does. -/
def lstripChar (c : Char) (s : String) : String :=
  String.mk (s.toList.dropWhile (fun x => x == c))

/-- Stripping of leading and trailing whitespace, as str.strip does. -/
def pyStrip (s : String) : String :=
  String.mk (((s.toList.dropWhile Char.isWhitespace).reverse.dropWhile
    Char.isWhitespace).reverse)

/-- Splitting of a character list at every occurrence of one character, as
str.split with a single-character separator does. -/
def splitCharAux (c : Char) : List Char → List (List Char)
  | [] => [[]]
  | x :: xs =>
    match splitCharAux c xs with
    | [] => [[]]
    | h :: t => if x == c then [] :: h :: t else (x :: h) :: t

/-- Splitting of a string into its newline-separated lines. -/
def pySplitLines (s : String) : List String :=
  (splitCharAux '\n' s.toList).map String.mk

/-- Test of one character list being a prefix of another, as
str.startswith does on the underlying strings. -/
def listStartsWith : List Char → List Char → Bool
  | _, [] => true
  | [], _ :: _ => false
  | x :: xs, y :: ys => x == y && listStartsWith xs ys

/-- Cleaning of one fact line (llm_manager.py line 286): strip, remove
leading bullet markers, strip again. -/
def cleanFact (l : String) : String :=
  pyStrip (lstripChar '*' (lstripChar '-' (lstripChar '•' (pyStrip l))))

/-- Parsing of the key-facts chain output (llm_manager.py lines 285-289):
split on newlines, keep lines that are nonblank and do not start with the
Swedish heading, clean each kept line. -/
def parseFacts (s : String) : List String :=
  ((pySplitLines s).filter
    (fun l => !(pyStrip l == "")
      && !(listStartsWith (pyStrip l).toList "Viktiga fakta".toList))).map cleanFact

/-- Model of LLMManager._extract_key_facts (llm_manager.py lines 276-295):
one generator call; on success the parsed facts capped at 5, on failure the
exception is caught and the empty list returned. -/
def extractKeyFacts (env : Env) (articlesText summary : String) : List String :=
  match env.keyFactsChain articlesText summary with
  | Except.ok s => (parseFacts s).take 5
  | Except.error _ => []

/-- Model of LLMManager._generate_internal_links (llm_manager.py lines
297-319): a pure pass over the first 3 context entries keeping the
title and url metadata values when both keys are present; no generator
call occurs.  The result is a list of title-url pairs, the dicts of the
source. -/
def internalLinksOf (ctx : List VectorStoreEntry) : List (String × String) :=
  (ctx.take 3).filterMap (fun e =>
    match e.metadata.title, e.metadata.url with
    | some t, some u => some (t, u)
    | _, _ => none)

/-- Pydantic construction of the NeutralSummary inside
generate_neutral_summary (llm_manager.py lines 166-171).  The
internal_links argument is the list of title-url dicts produced by
_generate_internal_links, but the field is declared List[HttpUrl]
(news_models.py line 84), and a dict is not a valid URL input, so
validation fails whenever the list is nonempty. -/
def mkNeutralSummaryChecked (summary : String) (facts ctxSnips : List String)
    (links : List (String × String)) : Except String NeutralSummary :=
  if links.isEmpty then
    Except.ok { summary := summary, key_facts := facts,
                related_context := ctxSnips, internal_links := [] }
  else Except.error "validation error for NeutralSummary: internal_links: URL input should be a string"

/-- Sentinel NeutralSummary returned by the except block of
generate_neutral_summary (llm_manager.py lines 176-183). -/
def neutralErrorSentinel (e : String) : NeutralSummary :=
  { summary := "Kunde inte generera neutral sammanfattning: " ++ e,
    key_facts := [], related_context := [], internal_links := [] }

/-- Model of LLMManager.generate_neutral_summary (llm_manager.py lines
129-183).  The summary chain call comes first; when it raises, the wrapping
try catches and the sentinel with empty facts and links is returned.  When
it succeeds, key facts and internal links are computed (each total, since
each catches internally), and the final pydantic construction can still
raise on a nonempty link list, which the same wrapping try catches. -/
def generateNeutralSummary (env : Env) (articles : List NewsArticle)
    (ctx : List VectorStoreEntry) (topic : String) : NeutralSummary :=
  let articlesText := formatArticles articles
  let contextText := formatContext ctx
  match env.neutralChain articlesText contextText topic with
  | Except.error e => neutralErrorSentinel e
  | Except.ok summaryResult =>
    let keyFacts := extractKeyFacts env articlesText summaryResult
    let links := internalLinksOf ctx
    match mkNeutralSummaryChecked summaryResult.trim keyFacts
        ((ctx.take 3).map (fun e => e.content.take 200 ++ "...")) links with
    | Except.ok ns => ns
    | Except.error e => neutralErrorSentinel e

/-- Validation performed when a BiasVisualizationData object is built from
one article (llm_manager.py lines 199-203): source_name must be a plain
string and the bias label must match the regex; the url was already
validated on the article. -/
def vizOf (a : NewsArticle) : Except String BiasVisualizationData :=
  match a.source_name with
  | some s =>
      if validBias a.political_bias then
        Except.ok { source_name := s, bias := a.political_bias, url := a.url }
      else Except.error "bias: string should match pattern"
  | none => Except.error "source_name: input should be a valid string"

/-- Loop of generate_bias_visualization_data (llm_manager.py lines
196-204): one entry built and appended per article, stopping at the first
validation failure, whose exception propagates. -/
def vizList : List NewsArticle → Except String (List BiasVisualizationData)
  | [] => Except.ok []
  | a :: t =>
    match vizOf a with
    | Except.ok v => (vizList t).map (fun l => v :: l)
    | Except.error e => Except.error e

/-- Model of LLMManager.generate_bias_visualization_data (llm_manager.py
lines 185-211): a loop appending one entry per article, wrapped as a whole
in a try whose except returns the empty list, so the first article that
fails validation discards every entry. -/
def generateBiasVisualizationData (articles : List NewsArticle) :
    List BiasVisualizationData :=
  match vizList articles with
  | Except.ok l => l
  | Except.error _ => []

/-- Model of NewsAgent._discover_and_extract_articles (news_agent.py lines
95-128): recompute the search query, ask the scraper for articles, and when
the input carries an explicit url try to fetch that one article too,
appending it when it is not already present under structural equality (the
Python not-in test uses pydantic field equality).  Every exception inside
the step, including a ValueError from get_search_query and a scraper
failure, is caught and the empty list returned. -/
def discoverArticles (env : Env) (input : ProcessingInput) : List NewsArticle :=
  match input.get_search_query with
  | Except.error _ => []
  | Except.ok q =>
    match env.findArticles q with
    | Except.error _ => []
    | Except.ok articles =>
      match input.topic_url with
      | none => articles
      | some u =>
        match env.fetchExtra u with
        | some extra => if extra ∈ articles then articles else articles ++ [extra]
        | none => articles

/-- Model of NewsAgent._retrieve_related_context (news_agent.py lines
130-145): one similarity_search call with limit 5 and threshold 0.7; the
scores are dropped; any exception is caught and the empty list returned. -/
def retrieveRelatedContext (env : Env) (topic : String) : List VectorStoreEntry :=
  match env.search topic 5 (7 / 10 : ℚ) with
  | Except.ok rs => rs.map (fun p => p.1)
  | Except.error _ => []

/-- Model of NewsAgent._publish_to_wordpress (news_agent.py lines 211-229):
skipped when no WordPress url is configured; a publisher failure is caught
and yields none. -/
def publishToWordpress (env : Env) (r : ProcessingResult) : Option Nat :=
  if env.wordpressUrl == "" then none
  else match env.publish r with
    | Except.ok pid => pid
    | Except.error _ => none

/-- Model of NewsAgent._create_error_result (news_agent.py lines 231-246). -/
def createErrorResult (msg : String) : ProcessingResult :=
  { topic := "Error",
    neutral_summary :=
      { summary := msg, key_facts := [], related_context := [], internal_links := [] },
    bias_summaries := [],
    bias_visualization_data := [],
    articles_processed := [],
    wordpress_post_id := none }

/-- Model of NewsAgent.process_news_topic (news_agent.py lines 34-93).  The
only expression inside the top-level try that can raise after the wrapped
sub-steps catch internally is get_search_query, first evaluated by the
logging statement on line 45; its ValueError reaches the top-level except
and becomes a Processing error result.  The agent-level wrappers for bias
summaries (lines 147-160) and the neutral summary (lines 162-184) add a
further try around calls that are already total here, so they reduce to the
llm-manager functions.  The vector-store write on line 71 has no effect on
the returned value and is modelled separately by addArticlesBatch.  The
WordPress post id is attached only when the returned id is truthy. -/
def processNewsTopic (env : Env) (input : ProcessingInput) : ProcessingResult :=
  match input.get_search_query with
  | Except.error e => createErrorResult ("Processing error: " ++ e)
  | Except.ok q =>
    let articles := discoverArticles env input
    if articles.isEmpty then
      createErrorResult "No articles found for the given topic"
    else
      let ctx := retrieveRelatedContext env q
      let biasSummaries := processAllBiasSummaries env.biasChain articles
      let neutral := generateNeutralSummary env articles ctx q
      let viz := generateBiasVisualizationData articles
      let result : ProcessingResult :=
        { topic := q, neutral_summary := neutral, bias_summaries := biasSummaries,
          bias_visualization_data := viz, articles_processed := articles,
          wordpress_post_id := none }
      match publishToWordpress env result with
      | some pid => if pid == 0 then result else { result with wordpress_post_id := some pid }
      | none => result

/-- Row written to the vector table by add_article (supabase_store.py lines
89-96), without the created_at timestamp. -/
structure VectorRow where
  id : String
  content : String
  metadata : VsMetadata
  embedding : List ℚ
deriving DecidableEq, Repr

/-- Model of SupabaseVectorStore._generate_content_id (supabase_store.py
lines 52-55): the id is the fixed article tag followed by the first 16 hex
digits of the digest of the url concatenated with the content.  The sha256
hex digest itself is kept abstract as a function parameter; every property
proved below holds for an arbitrary digest function, which is exactly the
determinism the design note in the spec asks for. -/
def generateContentId (digest : String → String) (content url : String) : String :=
  "article_" ++ (digest (url ++ content)).take 16

/-- Metadata dict built by add_article (supabase_store.py lines 78-87),
restricted to the modelled keys. -/
def metadataOf (a : NewsArticle) : VsMetadata :=
  { title := some a.title, url := some a.url, source := some a.source,
    domain := some a.domain, political_bias := some a.political_bias }

/-- Model of SupabaseVectorStore.add_article (supabase_store.py lines
62-105): embed the title plus the first 1000 characters of the body,
compute the content-addressed id, upsert the row; any failure is re-raised
to the caller. -/
def addArticle (digest : String → String)
    (encode : String → Except String (List ℚ))
    (upsert : VectorRow → Except String Unit)
    (a : NewsArticle) : Except String String := do
  let contentForEmbedding := a.title ++ "\n\n" ++ a.content.take 1000
  let embedding ← encode contentForEmbedding
  let articleId := generateContentId digest a.content a.url
  let _ ← upsert
    { id := articleId, content := contentForEmbedding,
      metadata := metadataOf a, embedding := embedding }
  return articleId

/-- Model of SupabaseVectorStore.add_articles_batch (supabase_store.py
lines 107-120): each article is added in turn; a failure on one article is
caught, logged and skipped, and the loop continues with the rest. -/
def addArticlesBatch (digest : String → String)
    (encode : String → Except String (List ℚ))
    (upsert : VectorRow → Except String Unit) :
    List NewsArticle → List String
  | [] => []
  | a :: rest =>
    match addArticle digest encode upsert a with
    | Except.ok i => i :: addArticlesBatch digest encode upsert rest
    | Except.error _ => addArticlesBatch digest encode upsert rest

lemma labelEntry_bias (gen : String → String → Except String String)
    (grouped : String → List NewsArticle) (b : String) :
    (labelEntry gen grouped b).political_bias = b := by
  unfold labelEntry
  by_cases hg : (grouped b).isEmpty <;> simp [hg, emptyBiasSentinel]

lemma sourcesOption_of_isSome (l : List NewsArticle)
    (h : ∀ a ∈ l, a.source_name.isSome) :
    sourcesOption l = some (l.map (fun a => a.source_name.getD "")) := by
  induction l with
  | nil => rfl
  | cons a t ih =>
      have ha : a.source_name.isSome := h a (List.mem_cons_self a t)
      obtain ⟨s, hs⟩ := Option.isSome_iff_exists.mp ha
      have ht := ih (fun x hx => h x (List.mem_cons_of_mem a hx))
      simp [sourcesOption, hs, ht]

lemma processLabels_eq (gen : String → String → Except String String)
    (grouped : String → List NewsArticle) (bs : List String)
    (h : ∀ b ∈ bs, ∀ a ∈ grouped b, a.source_name.isSome) :
    processLabels gen grouped bs
      = (Except.ok (bs.map (labelEntry gen grouped)),
         (bs.filter (fun b => !(grouped b).isEmpty)).map
           (fun b => (b, formatArticles (grouped b)))) := by
  induction bs with
  | nil => rfl
  | cons b rest ih =>
      have hrest := ih (fun x hx => h x (List.mem_cons_of_mem b hx))
      by_cases hg : (grouped b).isEmpty
      · simp [processLabels, hg, hrest, labelEntry, Except.map]
      · have hmap := sourcesOption_of_isSome (grouped b) (h b (List.mem_cons_self b rest))
        simp [processLabels, hg, hrest, labelEntry, hmap, Except.map]

lemma processAllLog_eq (gen : String → String → Except String String)
    (articles : List NewsArticle) (hwf : ∀ a ∈ articles, a.source_name.isSome) :
    processAllBiasSummariesLog gen articles
      = (["Left", "Center", "Right"].map (labelEntry gen (groupByBias articles)),
         (["Left", "Center", "Right"].filter
            (fun b => !(groupByBias articles b).isEmpty)).map
           (fun b => (b, formatArticles (groupByBias articles b)))) := by
  have h : ∀ b ∈ ["Left", "Center", "Right"], ∀ a ∈ groupByBias articles b,
      a.source_name.isSome := by
    intro b _ a ha
    exact hwf a (List.mem_of_mem_filter ha)
  unfold processAllBiasSummariesLog
  rw [processLabels_eq gen (groupByBias articles) _ h]

lemma processNewsTopic_ok_shape (env : Env) (input : ProcessingInput) (q : String)
    (hq : input.get_search_query = Except.ok q)
    (hne : discoverArticles env input ≠ []) :
    ∃ pid, processNewsTopic env input =
      { topic := q,
        neutral_summary :=
          generateNeutralSummary env (discoverArticles env input)
            (retrieveRelatedContext env q) q,
        bias_summaries := processAllBiasSummaries env.biasChain (discoverArticles env input),
        bias_visualization_data :=
          generateBiasVisualizationData (discoverArticles env input),
        articles_processed := discoverArticles env input,
        wordpress_post_id := pid } := by
  unfold processNewsTopic
  rw [hq]
  simp only [List.isEmpty_iff, hne, if_false]
  set r : ProcessingResult :=
    { topic := q,
      neutral_summary :=
        generateNeutralSummary env (discoverArticles env input)
          (retrieveRelatedContext env q) q,
      bias_summaries := processAllBiasSummaries env.biasChain (discoverArticles env input),
      bias_visualization_data := generateBiasVisualizationData (discoverArticles env input),
      articles_processed := discoverArticles env input,
      wordpress_post_id := none } with hr
  match hp : publishToWordpress env r with
  | none => exact ⟨none, rfl⟩
  | some pid =>
      by_cases h0 : pid == 0
      · exact ⟨none, by simp [h0]⟩
      · exact ⟨some pid, by simp [h0]⟩

/-- C10: every NewsArticle constructed with exactly one of the keys source
and source_name supplied (the other key absent from the data) ends up with
both fields carrying that same value: the constructor mirrors the supplied
one into the missing one, so source_name equals some source. -/
theorem newsArticle_init_mirrors (d : NewsArticleData) (s : String) (a : NewsArticle)
    (h : (d.source = some (some s) ∧ d.source_name = none) ∨
         (d.source = none ∧ d.source_name = some (some s)))
    (hok : NewsArticle.init d = Except.ok a) :
    a.source = s ∧ a.source_name = some s := by
  rcases h with ⟨h1, h2⟩ | ⟨h1, h2⟩ <;>
  · simp only [NewsArticle.init, h1, h2, Option.isSome_some, and_true, and_false,
      if_true, if_false, reduceCtorEq, not_false_eq_true, and_self] at hok
    by_cases hb : validBias d.political_bias <;> simp [hb] at hok
    obtain ⟨rfl⟩ := hok.symm
    exact ⟨rfl, rfl⟩

/-- Witness for C10 at a concrete construction that supplies only the
source key. -/
theorem newsArticle_init_mirrors_witness :
    { title := "t", content := "c", url := "http://a.se/x", source := "Aftonbladet",
      source_name := some "Aftonbladet", domain := "aftonbladet.se",
      political_bias := "Left" : NewsArticle }.source = "Aftonbladet"
    ∧ { title := "t", content := "c", url := "http://a.se/x", source := "Aftonbladet",
        source_name := some "Aftonbladet", domain := "aftonbladet.se",
        political_bias := "Left" : NewsArticle }.source_name = some "Aftonbladet" :=
  newsArticle_init_mirrors
    { title := "t", content := "c", url := "http://a.se/x",
      source := some (some "Aftonbladet"), source_name := none,
      domain := "aftonbladet.se", political_bias := "Left" }
    "Aftonbladet" _ (Or.inl ⟨rfl, rfl⟩) (by decide)

/-- C6 counterexample: the claim says the derived query equals topic_title
whenever that field is set and fails only when all three fields are absent;
but the code tests Python truthiness, so an input whose topic_title is set
to the empty string while the other fields are absent raises the ValueError
instead of returning the set title. -/
theorem getSearchQuery_truthiness_counterexample :
    (ProcessingInput.get_search_query
        { topic_title := some "", topic_url := none, topic_description := none }
      = Except.error "At least one input field must be provided")
    ∧ ¬ (ProcessingInput.get_search_query
        { topic_title := some "", topic_url := none, topic_description := none }
      = Except.ok "") := by decide

/-- C6 amended: the derived query equals topic_title when that field is set
to a nonempty string, else topic_description when set to a nonempty string,
else the url string when topic_url is present; when every field is absent
or set to an empty string the derivation fails with the ValueError. -/
theorem getSearchQuery_priority_amended (i : ProcessingInput) :
    (∀ t, i.topic_title = some t → t ≠ "" → i.get_search_query = Except.ok t)
    ∧ (∀ d, truthy i.topic_title = false → i.topic_description = some d → d ≠ "" →
        i.get_search_query = Except.ok d)
    ∧ (∀ u, truthy i.topic_title = false → truthy i.topic_description = false →
        i.topic_url = some u → i.get_search_query = Except.ok u)
    ∧ (truthy i.topic_title = false → truthy i.topic_description = false →
        i.topic_url = none →
        i.get_search_query = Except.error "At least one input field must be provided") := by
  refine ⟨?_, ?_, ?_, ?_⟩
  · intro t ht hne
    simp [ProcessingInput.get_search_query, truthy, ht, hne]
  · intro d ht hd hne
    unfold ProcessingInput.get_search_query
    rw [ht, hd]
    simp [truthy, hne]
  · intro u ht hd hu
    unfold ProcessingInput.get_search_query
    rw [ht, hd, hu]
    rfl
  · intro ht hd hu
    unfold ProcessingInput.get_search_query
    rw [ht, hd, hu]
    rfl

/-- Witness for the amended C6: a blank title falls through to the
description. -/
theorem getSearchQuery_priority_amended_witness :
    ProcessingInput.get_search_query
      { topic_title := some "", topic_url := none, topic_description := some "valet" }
      = Except.ok "valet" :=
  (getSearchQuery_priority_amended
    { topic_title := some "", topic_url := none, topic_description := some "valet" }).2.1
    "valet" (by decide) rfl (by decide)

lemma addArticle_ok_id (digest : String → String)
    (encode : String → Except String (List ℚ))
    (upsert : VectorRow → Except String Unit)
    (a : NewsArticle) (i : String)
    (h : addArticle digest encode upsert a = Except.ok i) :
    i = generateContentId digest a.content a.url := by
  unfold addArticle at h
  cases henc : encode (a.title ++ "\n\n" ++ a.content.take 1000) with
  | error e => simp [henc, bind, Except.bind] at h
  | ok emb =>
      cases hup : upsert
          { id := generateContentId digest a.content a.url,
            content := a.title ++ "\n\n" ++ a.content.take 1000,
            metadata := metadataOf a, embedding := emb } with
      | error e => simp [henc, hup, bind, Except.bind] at h
      | ok u => simp [henc, hup, bind, Except.bind, pure, Except.pure] at h; exact h.symm

/-- C5: the id stored for an article is a function of its url and full
text only, for every digest function, so two adds of articles with the same
url and text return the same id; and a failing add inside a batch is
skipped while every other article of the batch is still added. -/
theorem addBatch_contentId_bestEffort (digest : String → String)
    (encode : String → Except String (List ℚ))
    (upsert : VectorRow → Except String Unit) :
    (∀ a b i j, a.content = b.content → a.url = b.url →
      addArticle digest encode upsert a = Except.ok i →
      addArticle digest encode upsert b = Except.ok j → i = j)
    ∧ (∀ xs ys a e, addArticle digest encode upsert a = Except.error e →
        addArticlesBatch digest encode upsert (xs ++ a :: ys)
          = addArticlesBatch digest encode upsert xs
            ++ addArticlesBatch digest encode upsert ys)
    ∧ (∀ a i, addArticle digest encode upsert a = Except.ok i →
        addArticlesBatch digest encode upsert [a, a] = [i, i]) := by
  refine ⟨?_, ?_, ?_⟩
  · intro a b i j hc hu ha hb
    rw [addArticle_ok_id digest encode upsert a i ha,
        addArticle_ok_id digest encode upsert b j hb, hc, hu]
  · intro xs ys a e he
    induction xs with
    | nil => simp [addArticlesBatch, he]
    | cons x t ih =>
        cases hx : addArticle digest encode upsert x with
        | ok i => simp [addArticlesBatch, hx, ih]
        | error e2 => simp [addArticlesBatch, hx, ih]
  · intro a i ha
    simp [addArticlesBatch, ha]

/-- Witness for C5: a concrete batch where the first and third adds succeed
and the second fails, checked against the theorem applied at that batch. -/
theorem addBatch_contentId_bestEffort_witness :
    addArticlesBatch (fun s => s) (fun _ => Except.ok [])
      (fun r => if r.id == "article_bad" then Except.error "db down" else Except.ok ())
      [{ title := "t1", content := "c1", url := "u1", source := "S1",
         source_name := some "S1", domain := "d1", political_bias := "Left" },
       { title := "t2", content := "ad", url := "b", source := "S2",
         source_name := some "S2", domain := "d2", political_bias := "Right" },
       { title := "t3", content := "c1", url := "u1", source := "S3",
         source_name := some "S3", domain := "d3", political_bias := "Center" }]
      = ["article_u1c1", "article_u1c1"] :=
  (addBatch_contentId_bestEffort (fun s => s) (fun _ => Except.ok [])
      (fun r => if r.id == "article_bad" then Except.error "db down" else Except.ok ())).2.1
    [{ title := "t1", content := "c1", url := "u1", source := "S1",
       source_name := some "S1", domain := "d1", political_bias := "Left" }]
    [{ title := "t3", content := "c1", url := "u1", source := "S3",
       source_name := some "S3", domain := "d3", political_bias := "Center" }]
    { title := "t2", content := "ad", url := "b", source := "S2",
      source_name := some "S2", domain := "d2", political_bias := "Right" }
    "db down" (by decide) |>.trans (by decide)

/-- C1: the orchestrator is a total function of its environment and input
(never raises, by construction of the model over arbitrary oracle
failures); every run returns either the error-variant result built by
create_error_result or a success object whose topic is the derived query
and whose article list is nonempty; the two failure paths that reach the
orchestrator (a ValueError from the query derivation and an empty discovery
result) return exactly the error variant; and the error variant carries the
topic Error, the explanatory message as its neutral summary and empty
collections everywhere else. -/
theorem processNewsTopic_error_variant (env : Env) (input : ProcessingInput) :
    ((∃ msg, processNewsTopic env input = createErrorResult msg)
      ∨ (∃ q, input.get_search_query = Except.ok q
          ∧ (processNewsTopic env input).topic = q
          ∧ (processNewsTopic env input).articles_processed ≠ []))
    ∧ (∀ e, input.get_search_query = Except.error e →
        processNewsTopic env input = createErrorResult ("Processing error: " ++ e))
    ∧ (∀ q, input.get_search_query = Except.ok q → discoverArticles env input = [] →
        processNewsTopic env input = createErrorResult "No articles found for the given topic")
    ∧ (∀ msg, (createErrorResult msg).topic = "Error"
        ∧ (createErrorResult msg).neutral_summary.summary = msg
        ∧ (createErrorResult msg).neutral_summary.key_facts = []
        ∧ (createErrorResult msg).neutral_summary.internal_links = []
        ∧ (createErrorResult msg).bias_summaries = []
        ∧ (createErrorResult msg).bias_visualization_data = []
        ∧ (createErrorResult msg).articles_processed = []) := by
  refine ⟨?_, ?_, ?_, ?_⟩
  · cases hq : input.get_search_query with
    | error e =>
        left
        exact ⟨"Processing error: " ++ e, by unfold processNewsTopic; rw [hq]⟩
    | ok q =>
        by_cases hne : discoverArticles env input = []
        · left
          refine ⟨"No articles found for the given topic", ?_⟩
          unfold processNewsTopic
          rw [hq]
          simp [hne]
        · right
          obtain ⟨pid, hshape⟩ := processNewsTopic_ok_shape env input q hq hne
          exact ⟨q, rfl, by rw [hshape], by rw [hshape]; exact hne⟩
  · intro e he
    unfold processNewsTopic
    rw [he]
  · intro q hq hempty
    unfold processNewsTopic
    rw [hq]
    simp [hempty]
  · intro msg
    exact ⟨rfl, rfl, rfl, rfl, rfl, rfl, rfl⟩

/-- Witness for C1: a concrete run whose input has no field set ends in the
error variant with the propagated ValueError message. -/
theorem processNewsTopic_error_variant_witness :
    processNewsTopic
      { findArticles := fun _ => Except.ok [], fetchExtra := fun _ => none,
        search := fun _ _ _ => Except.error "down",
        biasChain := fun _ _ => Except.ok "s",
        neutralChain := fun _ _ _ => Except.ok "n",
        keyFactsChain := fun _ _ => Except.ok "f",
        wordpressUrl := "", publish := fun _ => Except.ok none }
      { topic_title := none, topic_url := none, topic_description := none }
      = createErrorResult "Processing error: At least one input field must be provided" :=
  (processNewsTopic_error_variant
    { findArticles := fun _ => Except.ok [], fetchExtra := fun _ => none,
      search := fun _ _ _ => Except.error "down",
      biasChain := fun _ _ => Except.ok "s",
      neutralChain := fun _ _ _ => Except.ok "n",
      keyFactsChain := fun _ _ => Except.ok "f",
      wordpressUrl := "", publish := fun _ => Except.ok none }
    { topic_title := none, topic_url := none, topic_description := none }).2.1
    "At least one input field must be provided" rfl

/-- C2: in every run whose discovery step yields at least one article, all
of them carrying a source name as the scraper construction guarantees, the
bias_summaries of the result are exactly three entries in the order Left,
Center, Right, whatever labels the discovered articles carry. -/
theorem biasSummaries_three_ordered (env : Env) (input : ProcessingInput) (q : String)
    (hq : input.get_search_query = Except.ok q)
    (hne : discoverArticles env input ≠ [])
    (hwf : ∀ a ∈ discoverArticles env input, a.source_name.isSome) :
    ∃ sL sC sR, (processNewsTopic env input).bias_summaries = [sL, sC, sR]
      ∧ sL.political_bias = "Left" ∧ sC.political_bias = "Center"
      ∧ sR.political_bias = "Right" := by
  obtain ⟨pid, hshape⟩ := processNewsTopic_ok_shape env input q hq hne
  rw [hshape]
  refine ⟨labelEntry env.biasChain (groupByBias (discoverArticles env input)) "Left",
          labelEntry env.biasChain (groupByBias (discoverArticles env input)) "Center",
          labelEntry env.biasChain (groupByBias (discoverArticles env input)) "Right",
          ?_, labelEntry_bias _ _ _, labelEntry_bias _ _ _, labelEntry_bias _ _ _⟩
  show processAllBiasSummaries env.biasChain (discoverArticles env input) = _
  unfold processAllBiasSummaries
  rw [processAllLog_eq env.biasChain (discoverArticles env input) hwf]
  rfl

/-- Witness for C2: a concrete run discovering one Right-leaning article
still yields three summaries in label order. -/
theorem biasSummaries_three_ordered_witness :
    ∃ sL sC sR,
      (processNewsTopic
        { findArticles := fun _ => Except.ok
            [{ title := "t", content := "c", url := "http://svd.se/x", source := "SvD",
               source_name := some "SvD", domain := "svd.se", political_bias := "Right" }],
          fetchExtra := fun _ => none,
          search := fun _ _ _ => Except.error "down",
          biasChain := fun _ _ => Except.ok "s",
          neutralChain := fun _ _ _ => Except.ok "n",
          keyFactsChain := fun _ _ => Except.ok "f",
          wordpressUrl := "", publish := fun _ => Except.ok none }
        { topic_title := some "valet", topic_url := none,
          topic_description := none }).bias_summaries = [sL, sC, sR]
      ∧ sL.political_bias = "Left" ∧ sC.political_bias = "Center"
      ∧ sR.political_bias = "Right" :=
  biasSummaries_three_ordered
    { findArticles := fun _ => Except.ok
        [{ title := "t", content := "c", url := "http://svd.se/x", source := "SvD",
           source_name := some "SvD", domain := "svd.se", political_bias := "Right" }],
      fetchExtra := fun _ => none,
      search := fun _ _ _ => Except.error "down",
      biasChain := fun _ _ => Except.ok "s",
      neutralChain := fun _ _ _ => Except.ok "n",
      keyFactsChain := fun _ _ => Except.ok "f",
      wordpressUrl := "", publish := fun _ => Except.ok none }
    { topic_title := some "valet", topic_url := none, topic_description := none }
    "valet" rfl (by decide) (by decide)

/-- C4: for every bias label whose group of matching articles is empty --
given articles that carry source names, as the scraper construction
guarantees -- the output of process_all_bias_summaries contains the fixed
no-coverage sentinel for that label (fixed text, article_count 0, empty
sources), and the generator-call log contains no call for that label. -/
theorem emptyGroup_sentinel_no_generator_call
    (gen : String → String → Except String String)
    (articles : List NewsArticle) (b : String)
    (hb : b ∈ ["Left", "Center", "Right"])
    (hempty : groupByBias articles b = [])
    (hwf : ∀ a ∈ articles, a.source_name.isSome) :
    emptyBiasSentinel b ∈ (processAllBiasSummariesLog gen articles).1
    ∧ ∀ c ∈ (processAllBiasSummariesLog gen articles).2, c.1 ≠ b := by
  rw [processAllLog_eq gen articles hwf]
  constructor
  · have : labelEntry gen (groupByBias articles) b = emptyBiasSentinel b := by
      unfold labelEntry
      simp [hempty]
    rw [← this]
    exact List.mem_map_of_mem _ hb
  · intro c hc hcb
    simp only [List.mem_map, List.mem_filter] at hc
    obtain ⟨x, ⟨_, hxne⟩, hxc⟩ := hc
    rw [← hxc] at hcb
    simp only at hcb
    rw [hcb, hempty] at hxne
    simp at hxne

/-- Witness for C4: with one Left article, the Right group is empty, the
sentinel appears and no generator call names Right. -/
theorem emptyGroup_sentinel_no_generator_call_witness :
    emptyBiasSentinel "Right" ∈
      (processAllBiasSummariesLog (fun _ _ => Except.ok "sammanfattning")
        [{ title := "t", content := "c", url := "http://ab.se/x", source := "Aftonbladet",
           source_name := some "Aftonbladet", domain := "aftonbladet.se",
           political_bias := "Left" }]).1
    ∧ ∀ c ∈ (processAllBiasSummariesLog (fun _ _ => Except.ok "sammanfattning")
        [{ title := "t", content := "c", url := "http://ab.se/x", source := "Aftonbladet",
           source_name := some "Aftonbladet", domain := "aftonbladet.se",
           political_bias := "Left" }]).2, c.1 ≠ "Right" :=
  emptyGroup_sentinel_no_generator_call (fun _ _ => Except.ok "sammanfattning")
    [{ title := "t", content := "c", url := "http://ab.se/x", source := "Aftonbladet",
       source_name := some "Aftonbladet", domain := "aftonbladet.se",
       political_bias := "Left" }]
    "Right" (by decide) (by decide) (by decide)

lemma generateNeutralSummary_empty_ctx (env : Env) (articles : List NewsArticle)
    (topic : String) :
    (generateNeutralSummary env articles [] topic).related_context = []
    ∧ (generateNeutralSummary env articles [] topic).internal_links = [] := by
  cases h : env.neutralChain (formatArticles articles) (formatContext []) topic with
  | error e => simp [generateNeutralSummary, h, neutralErrorSentinel]
  | ok s => simp [generateNeutralSummary, h, internalLinksOf, mkNeutralSummaryChecked]

/-- C9: the context-retrieval step issues exactly one similarity_search
request with limit 5 and threshold 7/10 against the search query -- the
run is determined by the value of the search oracle at those arguments --
and when that request fails the context list is empty and the run still
completes as a success whose neutral summary is generated from the
articles alone, with empty context snippets and links. -/
theorem contextRetrieval_failure_degrades (env : Env) (input : ProcessingInput)
    (q e : String)
    (hq : input.get_search_query = Except.ok q)
    (hne : discoverArticles env input ≠ [])
    (hfail : env.search q 5 (7 / 10 : ℚ) = Except.error e) :
    retrieveRelatedContext env q = []
    ∧ (processNewsTopic env input).topic = q
    ∧ (processNewsTopic env input).neutral_summary
        = generateNeutralSummary env (discoverArticles env input) [] q
    ∧ (processNewsTopic env input).neutral_summary.related_context = []
    ∧ (processNewsTopic env input).neutral_summary.internal_links = [] := by
  have hctx : retrieveRelatedContext env q = [] := by
    unfold retrieveRelatedContext
    rw [hfail]
  obtain ⟨pid, hshape⟩ := processNewsTopic_ok_shape env input q hq hne
  rw [hshape]
  refine ⟨hctx, rfl, by rw [hctx], ?_, ?_⟩
  · show (generateNeutralSummary env (discoverArticles env input)
      (retrieveRelatedContext env q) q).related_context = []
    rw [hctx]
    exact (generateNeutralSummary_empty_ctx env (discoverArticles env input) q).1
  · show (generateNeutralSummary env (discoverArticles env input)
      (retrieveRelatedContext env q) q).internal_links = []
    rw [hctx]
    exact (generateNeutralSummary_empty_ctx env (discoverArticles env input) q).2

/-- Witness for C9 at a concrete run whose search oracle fails on the
issued request. -/
theorem contextRetrieval_failure_degrades_witness :
    retrieveRelatedContext
      { findArticles := fun _ => Except.ok
          [{ title := "t", content := "c", url := "http://dn.se/x", source := "DN",
             source_name := some "DN", domain := "dn.se", political_bias := "Center" }],
        fetchExtra := fun _ => none,
        search := fun _ _ _ => Except.error "rpc failed",
        biasChain := fun _ _ => Except.ok "s",
        neutralChain := fun _ _ _ => Except.ok "n",
        keyFactsChain := fun _ _ => Except.ok "f",
        wordpressUrl := "", publish := fun _ => Except.ok none } "valet" = []
    ∧ (processNewsTopic
        { findArticles := fun _ => Except.ok
            [{ title := "t", content := "c", url := "http://dn.se/x", source := "DN",
               source_name := some "DN", domain := "dn.se", political_bias := "Center" }],
          fetchExtra := fun _ => none,
          search := fun _ _ _ => Except.error "rpc failed",
          biasChain := fun _ _ => Except.ok "s",
          neutralChain := fun _ _ _ => Except.ok "n",
          keyFactsChain := fun _ _ => Except.ok "f",
          wordpressUrl := "", publish := fun _ => Except.ok none }
        { topic_title := some "valet", topic_url := none,
          topic_description := none }).topic = "valet"
    ∧ (processNewsTopic
        { findArticles := fun _ => Except.ok
            [{ title := "t", content := "c", url := "http://dn.se/x", source := "DN",
               source_name := some "DN", domain := "dn.se", political_bias := "Center" }],
          fetchExtra := fun _ => none,
          search := fun _ _ _ => Except.error "rpc failed",
          biasChain := fun _ _ => Except.ok "s",
          neutralChain := fun _ _ _ => Except.ok "n",
          keyFactsChain := fun _ _ => Except.ok "f",
          wordpressUrl := "", publish := fun _ => Except.ok none }
        { topic_title := some "valet", topic_url := none,
          topic_description := none }).neutral_summary
      = generateNeutralSummary
          { findArticles := fun _ => Except.ok
              [{ title := "t", content := "c", url := "http://dn.se/x", source := "DN",
                 source_name := some "DN", domain := "dn.se", political_bias := "Center" }],
            fetchExtra := fun _ => none,
            search := fun _ _ _ => Except.error "rpc failed",
            biasChain := fun _ _ => Except.ok "s",
            neutralChain := fun _ _ _ => Except.ok "n",
            keyFactsChain := fun _ _ => Except.ok "f",
            wordpressUrl := "", publish := fun _ => Except.ok none }
          (discoverArticles
            { findArticles := fun _ => Except.ok
                [{ title := "t", content := "c", url := "http://dn.se/x", source := "DN",
                   source_name := some "DN", domain := "dn.se", political_bias := "Center" }],
              fetchExtra := fun _ => none,
              search := fun _ _ _ => Except.error "rpc failed",
              biasChain := fun _ _ => Except.ok "s",
              neutralChain := fun _ _ _ => Except.ok "n",
              keyFactsChain := fun _ _ => Except.ok "f",
              wordpressUrl := "", publish := fun _ => Except.ok none }
            { topic_title := some "valet", topic_url := none,
              topic_description := none }) [] "valet"
    ∧ (processNewsTopic
        { findArticles := fun _ => Except.ok
            [{ title := "t", content := "c", url := "http://dn.se/x", source := "DN",
               source_name := some "DN", domain := "dn.se", political_bias := "Center" }],
          fetchExtra := fun _ => none,
          search := fun _ _ _ => Except.error "rpc failed",
          biasChain := fun _ _ => Except.ok "s",
          neutralChain := fun _ _ _ => Except.ok "n",
          keyFactsChain := fun _ _ => Except.ok "f",
          wordpressUrl := "", publish := fun _ => Except.ok none }
        { topic_title := some "valet", topic_url := none,
          topic_description := none }).neutral_summary.related_context = []
    ∧ (processNewsTopic
        { findArticles := fun _ => Except.ok
            [{ title := "t", content := "c", url := "http://dn.se/x", source := "DN",
               source_name := some "DN", domain := "dn.se", political_bias := "Center" }],
          fetchExtra := fun _ => none,
          search := fun _ _ _ => Except.error "rpc failed",
          biasChain := fun _ _ => Except.ok "s",
          neutralChain := fun _ _ _ => Except.ok "n",
          keyFactsChain := fun _ _ => Except.ok "f",
          wordpressUrl := "", publish := fun _ => Except.ok none }
        { topic_title := some "valet", topic_url := none,
          topic_description := none }).neutral_summary.internal_links = [] :=
  contextRetrieval_failure_degrades
    { findArticles := fun _ => Except.ok
        [{ title := "t", content := "c", url := "http://dn.se/x", source := "DN",
           source_name := some "DN", domain := "dn.se", political_bias := "Center" }],
      fetchExtra := fun _ => none,
      search := fun _ _ _ => Except.error "rpc failed",
      biasChain := fun _ _ => Except.ok "s",
      neutralChain := fun _ _ _ => Except.ok "n",
      keyFactsChain := fun _ _ => Except.ok "f",
      wordpressUrl := "", publish := fun _ => Except.ok none }
    { topic_title := some "valet", topic_url := none, topic_description := none }
    "valet" "rpc failed" rfl (by decide) rfl

/-- C3 counterexample: the claim says every one of the three sub-steps
fails independently, leaving the other two intact.  In a concrete run whose
summary chain raises while the key-facts chain succeeds on every input
(returning one bullet fact), the returned NeutralSummary is the blank error
sentinel: the key-facts result is discarded, because the single try block
wrapping generate_neutral_summary aborts before the other sub-steps run. -/
theorem neutralSummary_substeps_counterexample :
    generateNeutralSummary
      { findArticles := fun _ => Except.ok [], fetchExtra := fun _ => none,
        search := fun _ _ _ => Except.error "down",
        biasChain := fun _ _ => Except.ok "s",
        neutralChain := fun _ _ _ => Except.error "boom",
        keyFactsChain := fun _ _ => Except.ok "• fakta",
        wordpressUrl := "", publish := fun _ => Except.ok none }
      [{ title := "t", content := "c", url := "http://dn.se/x", source := "DN",
         source_name := some "DN", domain := "dn.se", political_bias := "Center" }]
      [] "t"
      = neutralErrorSentinel "boom"
    ∧ (generateNeutralSummary
        { findArticles := fun _ => Except.ok [], fetchExtra := fun _ => none,
          search := fun _ _ _ => Except.error "down",
          biasChain := fun _ _ => Except.ok "s",
          neutralChain := fun _ _ _ => Except.error "boom",
          keyFactsChain := fun _ _ => Except.ok "• fakta",
          wordpressUrl := "", publish := fun _ => Except.ok none }
        [{ title := "t", content := "c", url := "http://dn.se/x", source := "DN",
           source_name := some "DN", domain := "dn.se", political_bias := "Center" }]
        [] "t").key_facts = []
    ∧ extractKeyFacts
        { findArticles := fun _ => Except.ok [], fetchExtra := fun _ => none,
          search := fun _ _ _ => Except.error "down",
          biasChain := fun _ _ => Except.ok "s",
          neutralChain := fun _ _ _ => Except.error "boom",
          keyFactsChain := fun _ _ => Except.ok "• fakta",
          wordpressUrl := "", publish := fun _ => Except.ok none }
        "anything" "anything" = ["fakta"] := by
  refine ⟨by decide, by decide, by decide⟩

/-- C3 amended: only the key-facts sub-step fails independently.  A failure
of the summary-text sub-step returns the error sentinel with empty key
facts and links, discarding the other sub-steps; when the summary succeeds
and the derived link list is empty (any nonempty link list itself aborts
construction, see the internal-links bug), a key-facts failure leaves the
summary text, the context snippets and the links intact. -/
theorem neutralSummary_substeps_amended (env : Env) (articles : List NewsArticle)
    (ctx : List VectorStoreEntry) (topic : String) :
    (∀ e, env.neutralChain (formatArticles articles) (formatContext ctx) topic
        = Except.error e →
      generateNeutralSummary env articles ctx topic = neutralErrorSentinel e)
    ∧ (∀ s, env.neutralChain (formatArticles articles) (formatContext ctx) topic
        = Except.ok s → internalLinksOf ctx = [] →
      (generateNeutralSummary env articles ctx topic).summary = s.trim
      ∧ (generateNeutralSummary env articles ctx topic).related_context
          = (ctx.take 3).map (fun e => e.content.take 200 ++ "...")
      ∧ (generateNeutralSummary env articles ctx topic).internal_links = []
      ∧ (∀ e2, env.keyFactsChain (formatArticles articles) s = Except.error e2 →
          (generateNeutralSummary env articles ctx topic).key_facts = [])) := by
  constructor
  · intro e he
    simp [generateNeutralSummary, he]
  · intro s hs hlinks
    refine ⟨?_, ?_, ?_, ?_⟩
    · simp [generateNeutralSummary, hs, hlinks, mkNeutralSummaryChecked]
    · simp [generateNeutralSummary, hs, hlinks, mkNeutralSummaryChecked]
    · simp [generateNeutralSummary, hs, hlinks, mkNeutralSummaryChecked]
    · intro e2 he2
      simp [generateNeutralSummary, hs, hlinks, mkNeutralSummaryChecked,
        extractKeyFacts, he2]

/-- Witness for the amended C3: with a succeeding summary chain, a failing
key-facts chain and no context, the summary text survives while key facts
are empty. -/
theorem neutralSummary_substeps_amended_witness :
    (generateNeutralSummary
      { findArticles := fun _ => Except.ok [], fetchExtra := fun _ => none,
        search := fun _ _ _ => Except.error "down",
        biasChain := fun _ _ => Except.ok "s",
        neutralChain := fun _ _ _ => Except.ok " Sammanfattning ",
        keyFactsChain := fun _ _ => Except.error "facts down",
        wordpressUrl := "", publish := fun _ => Except.ok none }
      [{ title := "t", content := "c", url := "http://dn.se/x", source := "DN",
         source_name := some "DN", domain := "dn.se", political_bias := "Center" }]
      [] "t").summary = " Sammanfattning ".trim
    ∧ (generateNeutralSummary
      { findArticles := fun _ => Except.ok [], fetchExtra := fun _ => none,
        search := fun _ _ _ => Except.error "down",
        biasChain := fun _ _ => Except.ok "s",
        neutralChain := fun _ _ _ => Except.ok " Sammanfattning ",
        keyFactsChain := fun _ _ => Except.error "facts down",
        wordpressUrl := "", publish := fun _ => Except.ok none }
      [{ title := "t", content := "c", url := "http://dn.se/x", source := "DN",
         source_name := some "DN", domain := "dn.se", political_bias := "Center" }]
      [] "t").key_facts = [] :=
  ⟨((neutralSummary_substeps_amended
      { findArticles := fun _ => Except.ok [], fetchExtra := fun _ => none,
        search := fun _ _ _ => Except.error "down",
        biasChain := fun _ _ => Except.ok "s",
        neutralChain := fun _ _ _ => Except.ok " Sammanfattning ",
        keyFactsChain := fun _ _ => Except.error "facts down",
        wordpressUrl := "", publish := fun _ => Except.ok none }
      [{ title := "t", content := "c", url := "http://dn.se/x", source := "DN",
         source_name := some "DN", domain := "dn.se", political_bias := "Center" }]
      [] "t").2 " Sammanfattning " rfl rfl).1,
   (((neutralSummary_substeps_amended
      { findArticles := fun _ => Except.ok [], fetchExtra := fun _ => none,
        search := fun _ _ _ => Except.error "down",
        biasChain := fun _ _ => Except.ok "s",
        neutralChain := fun _ _ _ => Except.ok " Sammanfattning ",
        keyFactsChain := fun _ _ => Except.error "facts down",
        wordpressUrl := "", publish := fun _ => Except.ok none }
      [{ title := "t", content := "c", url := "http://dn.se/x", source := "DN",
         source_name := some "DN", domain := "dn.se", political_bias := "Center" }]
      [] "t").2 " Sammanfattning " rfl rfl).2.2.2) "facts down" rfl⟩

/-- C7: the internal links never reach the returned NeutralSummary.  The
helper _generate_internal_links does derive title and url pairs from the
context metadata, capped at 3, with no generator call, as the second
conjunct shows on a concrete entry; but the NeutralSummary model declares
internal_links as List[HttpUrl], so pydantic rejects the dict pairs, the
exception is caught by the try block around the whole step, and the result
degrades to the blank error sentinel, as the third conjunct shows.  Hence,
first conjunct, the internal_links field of every returned NeutralSummary
is empty, for every environment, article list, context and topic.  The
WordPress publisher reads link title and url subscripts from this field, so
the model declaration contradicts the rest of the code and the spec. -/
theorem internalLinks_type_bug :
    (∀ (env : Env) (articles : List NewsArticle) (ctx : List VectorStoreEntry)
      (topic : String),
      (generateNeutralSummary env articles ctx topic).internal_links = [])
    ∧ internalLinksOf
        [{ id := "old1", content := "gammal artikel",
           metadata := { title := some "Titel", url := some "http://dn.se/old",
                         source := none, domain := none, political_bias := none },
           embedding := [] }]
        = [("Titel", "http://dn.se/old")]
    ∧ generateNeutralSummary
        { findArticles := fun _ => Except.ok [], fetchExtra := fun _ => none,
          search := fun _ _ _ => Except.error "down",
          biasChain := fun _ _ => Except.ok "s",
          neutralChain := fun _ _ _ => Except.ok "Sammanfattning",
          keyFactsChain := fun _ _ => Except.ok "• f",
          wordpressUrl := "", publish := fun _ => Except.ok none }
        [{ title := "t", content := "c", url := "http://dn.se/x", source := "DN",
           source_name := some "DN", domain := "dn.se", political_bias := "Center" }]
        [{ id := "old1", content := "gammal artikel",
           metadata := { title := some "Titel", url := some "http://dn.se/old",
                         source := none, domain := none, political_bias := none },
           embedding := [] }]
        "t"
      = neutralErrorSentinel
          "validation error for NeutralSummary: internal_links: URL input should be a string" := by
  refine ⟨?_, by decide, by decide⟩
  intro env articles ctx topic
  cases h : env.neutralChain (formatArticles articles) (formatContext ctx) topic with
  | error e => simp [generateNeutralSummary, h, neutralErrorSentinel]
  | ok s =>
      by_cases hl : (internalLinksOf ctx).isEmpty <;>
        simp [generateNeutralSummary, h, mkNeutralSummaryChecked, hl, neutralErrorSentinel]

/-- C8 counterexample: the claim says visualization maps articles one to
one and skips a malformed article per item.  With a first article whose
source_name is None and a second well-formed article, the whole step
returns the empty list: no entry for the second article, no one-to-one
mapping, no per-item skip. -/
theorem vizData_counterexample :
    generateBiasVisualizationData
      [{ title := "t1", content := "c1", url := "http://svt.se/b", source := "SVT",
         source_name := none, domain := "svt.se", political_bias := "Center" },
       { title := "t2", content := "c2", url := "http://dn.se/g", source := "DN",
         source_name := some "DN", domain := "dn.se", political_bias := "Center" }]
      = []
    ∧ (generateBiasVisualizationData
        [{ title := "t1", content := "c1", url := "http://svt.se/b", source := "SVT",
           source_name := none, domain := "svt.se", political_bias := "Center" },
         { title := "t2", content := "c2", url := "http://dn.se/g", source := "DN",
           source_name := some "DN", domain := "dn.se", political_bias := "Center" }]).length
      ≠ 2
    ∧ generateBiasVisualizationData
        [{ title := "t1", content := "c1", url := "http://svt.se/b", source := "SVT",
           source_name := none, domain := "svt.se", political_bias := "Center" },
         { title := "t2", content := "c2", url := "http://dn.se/g", source := "DN",
           source_name := some "DN", domain := "dn.se", political_bias := "Center" }]
      ≠ [{ source_name := "DN", bias := "Center", url := "http://dn.se/g" }] := by
  refine ⟨by decide, by decide, by decide⟩

lemma vizList_ok_of (articles : List NewsArticle)
    (h : ∀ a ∈ articles, a.source_name.isSome ∧ validBias a.political_bias) :
    vizList articles = Except.ok (articles.map (fun a =>
      { source_name := a.source_name.getD "", bias := a.political_bias, url := a.url })) := by
  induction articles with
  | nil => rfl
  | cons a t ih =>
      obtain ⟨hs, hb⟩ := h a (List.mem_cons_self a t)
      obtain ⟨s, hs2⟩ := Option.isSome_iff_exists.mp hs
      have ht := ih (fun x hx => h x (List.mem_cons_of_mem a hx))
      simp [vizList, vizOf, hs2, hb, ht, Except.map]

lemma vizList_error_of (articles : List NewsArticle)
    (h : ∃ a ∈ articles, a.source_name = none ∨ validBias a.political_bias = false) :
    ∃ e, vizList articles = Except.error e := by
  induction articles with
  | nil => simp at h
  | cons a t ih =>
      rcases h with ⟨x, hx, hbad⟩
      rcases List.mem_cons.mp hx with rfl | hxt
      · rcases hbad with hn | hb
        · exact ⟨"source_name: input should be a valid string",
            by simp [vizList, vizOf, hn]⟩
        · cases hs : x.source_name with
          | none => exact ⟨"source_name: input should be a valid string",
              by simp [vizList, vizOf, hs]⟩
          | some s => exact ⟨"bias: string should match pattern",
              by simp [vizList, vizOf, hs, hb]⟩
      · obtain ⟨e, he⟩ := ih ⟨x, hxt, hbad⟩
        cases hv : vizOf a with
        | error ea => exact ⟨ea, by simp [vizList, hv]⟩
        | ok v => exact ⟨e, by simp [vizList, hv, he, Except.map]⟩

/-- C8 amended: when every input article is well formed (source_name
present and a valid bias label), the visualization step maps the articles
one to one and order-preservingly onto entries; when any article is
malformed, the exception of its entry construction is caught at step level
and the whole step returns the empty list instead of skipping that item. -/
theorem vizData_mapping_amended (articles : List NewsArticle) :
    ((∀ a ∈ articles, a.source_name.isSome ∧ validBias a.political_bias) →
      generateBiasVisualizationData articles = articles.map (fun a =>
        { source_name := a.source_name.getD "", bias := a.political_bias, url := a.url }))
    ∧ ((∃ a ∈ articles, a.source_name = none ∨ validBias a.political_bias = false) →
      generateBiasVisualizationData articles = []) := by
  constructor
  · intro h
    unfold generateBiasVisualizationData
    rw [vizList_ok_of articles h]
  · intro h
    obtain ⟨e, he⟩ := vizList_error_of articles h
    unfold generateBiasVisualizationData
    rw [he]

/-- Witness for the amended C8: one well-formed article yields exactly its
entry. -/
theorem vizData_mapping_amended_witness :
    generateBiasVisualizationData
      [{ title := "t2", content := "c2", url := "http://dn.se/g", source := "DN",
         source_name := some "DN", domain := "dn.se", political_bias := "Center" }]
      = [{ source_name := "DN", bias := "Center", url := "http://dn.se/g" }] :=
  ((vizData_mapping_amended
      [{ title := "t2", content := "c2", url := "http://dn.se/g", source := "DN",
         source_name := some "DN", domain := "dn.se", political_bias := "Center" }]).1
    (by decide)).trans (by decide)
